import Mathlib

/-!
Shallow embedding of the scheduling/concurrency core of the Convo-Analytics
backend: the priority task queue with retry-and-priority-decay of
`src/backend/app/agents.py` (`BaseAgent`) and the real-time session buffering of
`src/backend/app/realtime_processor.py` (`RealtimeProcessor`).

Python floats are modelled as rationals (ℚ); the quantities involved
(confidence scores, thresholds, running means) are only compared and averaged,
so no claim hinges on binary floating-point rounding.  Timestamps
(`created_at`, `started_at`, `completed_at`, `last_activity`) and free-form
metadata are omitted: no claim mentions them.  Opaque payloads and audio bytes
are modelled as `Nat` tokens.
-/

namespace ConvoAnalytics

/-- The `AgentStatus` enum (agents.py lines 17-21). -/
inductive AgentStatus where
  | idle
  | processing
  | error
  | completed
deriving DecidableEq, Repr

/-- The `Priority` enum (agents.py lines 23-27). -/
inductive Priority where
  | low
  | medium
  | high
  | critical
deriving DecidableEq, Repr

/-- The values `Priority.value`: LOW=1, MEDIUM=2, HIGH=3, CRITICAL=4 (agents.py 24-27). -/
def Priority.value : Priority → Nat
  | .low => 1
  | .medium => 2
  | .high => 3
  | .critical => 4

/-- Python `Priority(v)` — construct the enum from its value.  In the source it
is only ever called as `Priority(max(1, task.priority.value - 1))`
(agents.py line 175), so the argument is always in 1..3; other inputs (on
which Python would raise `ValueError`) are mapped to `.low` and never arise. -/
def Priority.ofValue : Nat → Priority
  | 1 => .low
  | 2 => .medium
  | 3 => .high
  | 4 => .critical
  | _ => .low

/-- Collaborator result dict (opaque map).  Only the keys read or written by
`BaseAgent` are modelled: `confidence` / `accuracy` (optional floats supplied
by the collaborator, agents.py 190-193) and the keys the quality gate writes,
`quality_score` (line 145) and `quality_warning` (line 149; key absent ↦
`false`). -/
structure AgentResult where
  confidence : Option ℚ
  accuracy : Option ℚ
  quality_score : Option ℚ := none
  quality_warning : Bool := false
deriving DecidableEq, Repr

/-- The `Task` dataclass (agents.py 29-43), minus timestamps and metadata (unused
by the claims).  `data` is the opaque payload token, `id` an arrival token
standing in for the uuid. -/
structure Task where
  id : Nat
  data : Nat
  priority : Priority
  status : AgentStatus := .idle
  result : Option AgentResult := none
  error : Option String := none
  retry_count : Nat := 0
  max_retries : Nat := 3
deriving DecidableEq, Repr

/-- The `AgentConfig` dataclass (agents.py 45-53), minus the name and timing knobs
no claim mentions. -/
structure AgentConfig where
  max_concurrent_tasks : Nat := 5
  enable_quality_control : Bool := true
  confidence_threshold : ℚ := 7/10
deriving DecidableEq, Repr

/-- Method `BaseAgent._assess_quality` (agents.py 184-195): default score 0.8,
overridden by the result's `confidence` field if present, else its `accuracy`
field; the returned value is `min(1.0, max(0.0, score))`. -/
def assess_quality (result : AgentResult) : ℚ :=
  let quality_score : ℚ :=
    match result.confidence with
    | some c => c
    | none =>
      match result.accuracy with
      | some a => a
      | none => 4/5
  min 1 (max 0 quality_score)

/-- Outcome of the awaited collaborator call inside `_execute_task`:
`process_task` returned a result, the `asyncio.wait_for` timeout fired, or
`process_task` raised an exception with message `msg`. -/
inductive ExecOutcome where
  | success (result : AgentResult)
  | timeout
  | failure (msg : String)
deriving DecidableEq, Repr

/-- What one run of `_execute_task` leaves behind: the mutated task, the
pending queue (only the retry branch touches it, appending the task at line
176), and whether the task was re-enqueued for retry. -/
structure ExecResult where
  task : Task
  queue : List Task
  requeued : Bool
deriving DecidableEq, Repr

/-- The retry branch of `_execute_task` (agents.py 169-176): increment
`retry_count`, reset status to IDLE, clear the error, demote the priority one
level with floor LOW. -/
def retryTask (t : Task) : Task :=
  { t with
    retry_count := t.retry_count + 1
    status := .idle
    error := none
    priority := Priority.ofValue (max 1 (t.priority.value - 1)) }

/-- Method `BaseAgent._execute_task` (agents.py 129-182) as a function of the
collaborator-call outcome.  Success: run the quality gate if enabled
(`quality_score` always written, `quality_warning` only when the score is
below `confidence_threshold`), mark COMPLETED.  Timeout (`asyncio.TimeoutError`
is caught by the first `except` clause, lines 158-161, which has no retry
logic): set error "Task timeout", mark ERROR.  Other exception (lines
163-178): set the error and ERROR status; then, if `retry_count <
max_retries`, apply `retryTask` and append the task to the tail of
`task_queue`.  The `finally` bookkeeping on `active_tasks` is modelled by the
agent step system below. -/
def execute_task (cfg : AgentConfig) (t : Task) (queue : List Task)
    (o : ExecOutcome) : ExecResult :=
  let t := { t with status := .processing }
  match o with
  | .success result =>
    let result :=
      if cfg.enable_quality_control then
        let quality_score := assess_quality result
        let result := { result with quality_score := some quality_score }
        if quality_score < cfg.confidence_threshold then
          { result with quality_warning := true }
        else
          result
      else
        result
    { task := { t with result := some result, status := .completed }
      queue := queue
      requeued := false }
  | .timeout =>
    { task := { t with error := some "Task timeout", status := .error }
      queue := queue
      requeued := false }
  | .failure msg =>
    let t := { t with error := some msg, status := .error }
    if t.retry_count < t.max_retries then
      let t := retryTask t
      { task := t, queue := queue ++ [t], requeued := true }
    else
      { task := t, queue := queue, requeued := false }

/-- The priority insertion of `BaseAgent.add_task` (agents.py 94-103): scan the
queue from the front and insert the new task before the first entry whose
priority is strictly lower; if no such entry exists, append. -/
def addTaskInsert (queue : List Task) (task : Task) : List Task :=
  match queue with
  | [] => [task]
  | existing :: rest =>
    if task.priority.value > existing.priority.value then
      task :: existing :: rest
    else
      existing :: addTaskInsert rest task

/-- The fresh task built at the top of `add_task` (agents.py 81-87): default
status IDLE, no error, `retry_count = 0`, `max_retries = 3`. -/
def mkTask (id data : Nat) (priority : Priority) : Task :=
  { id := id, data := data, priority := priority }

/-- Method `BaseAgent.add_task` (agents.py 77-106): build the task; if
`validate_input(data)` is false, mark it ERROR with message
"Invalid input data" and return without touching the queue (lines 89-92);
otherwise insert it into the pending queue by priority. -/
def add_task (validate_input : Nat → Bool) (queue : List Task)
    (id data : Nat) (priority : Priority) : Task × List Task :=
  let task := mkTask id data priority
  if ¬ validate_input data then
    ({ task with status := .error, error := some "Invalid input data" }, queue)
  else
    (task, addTaskInsert queue task)

/-- Repeated execution of one task whose collaborator raises on every attempt:
each round is one `_execute_task` run with a `failure` outcome; a re-enqueued
task is dequeued and executed again.  Returns the number of `process_task`
invocations and the final task.  `fuel` bounds the recursion; any
`fuel ≥ max_retries - retry_count + 1` is enough. -/
def runAllFailing (cfg : AgentConfig) : Nat → Task → Nat × Task
  | 0, t => (0, t)
  | fuel + 1, t =>
    let r := execute_task cfg t [] (.failure "boom")
    if r.requeued then
      let rest := runAllFailing cfg fuel r.task
      (rest.1 + 1, rest.2)
    else
      (1, r.task)

/-- The agent's mutable collections (agents.py 61-63): the pending
`task_queue`, the `active_tasks` map (modelled as a list; ids are unique in
any run), and the `completed_tasks` history. -/
structure AgentState where
  queue : List Task
  active : List Task
  completed : List Task
deriving DecidableEq, Repr

/-- The empty state a fresh `BaseAgent` starts in (agents.py 61-63). -/
def AgentState.init : AgentState := ⟨[], [], []⟩

/-- Is the task in a terminal state, as tested by `_check_completed_tasks`
(agents.py 214: `task.status in [AgentStatus.COMPLETED, AgentStatus.ERROR]`)? -/
def isTerminal (t : Task) : Bool :=
  t.status = AgentStatus.completed || t.status = AgentStatus.error

/-- Method `BaseAgent._check_completed_tasks` (agents.py 210-219): move every task in
`active_tasks` whose status is terminal into `completed_tasks`. -/
def check_completed_tasks (s : AgentState) : AgentState :=
  { queue := s.queue
    active := s.active.filter (fun t => ¬ isTerminal t)
    completed := s.completed ++ s.active.filter (fun t => isTerminal t) }

/-- One observable transition of a `BaseAgent`.  The scheduling loop
(`start`, agents.py 113-123) and `add_task` are the only writers of the three
collections; `await self._execute_task(task)` runs to completion before the
loop continues, so the status mutations and the `finally` removal from
`active_tasks` (agents.py 180-182) of one execution are a single observable
step.  Timestamps aside, the steps are:
* `submit` / `submitInvalid`: `add_task` with a payload passing / failing
  `validate_input` (the errored task of an invalid payload is returned to the
  caller but stored nowhere);
* `startExec`: the loop body's admission (agents.py 116-117) — only when
  `len(active_tasks) < max_concurrent_tasks` and the queue is non-empty, pop
  the queue head, mark it PROCESSING and put it into `active_tasks`
  (agents.py 131-133);
* `finishExec`: the rest of `_execute_task` for one collaborator outcome,
  ending with the `finally` removal from `active_tasks`;
* `reap`: the loop's call to `_check_completed_tasks` (agents.py 121). -/
inductive AgentStep (cfg : AgentConfig) (validate_input : Nat → Bool) :
    AgentState → AgentState → Prop where
  | submit (s : AgentState) (id data : Nat) (priority : Priority)
      (hv : validate_input data = true) :
      AgentStep cfg validate_input s
        { s with queue := (add_task validate_input s.queue id data priority).2 }
  | submitInvalid (s : AgentState) (data : Nat)
      (hv : validate_input data = false) :
      AgentStep cfg validate_input s s
  | startExec (s : AgentState) (t : Task) (rest : List Task)
      (hq : s.queue = t :: rest)
      (hcap : s.active.length < cfg.max_concurrent_tasks) :
      AgentStep cfg validate_input s
        { queue := rest
          active := s.active ++ [{ t with status := .processing }]
          completed := s.completed }
  | finishExec (s : AgentState) (t : Task) (o : ExecOutcome)
      (ht : t ∈ s.active) :
      AgentStep cfg validate_input s
        { queue := (execute_task cfg t s.queue o).queue
          active := s.active.filter (fun u => u.id ≠ t.id)
          completed := s.completed }
  | reap (s : AgentState) :
      AgentStep cfg validate_input s (check_completed_tasks s)

/-- States reachable from the fresh agent. -/
def AgentReachable (cfg : AgentConfig) (validate_input : Nat → Bool)
    (s : AgentState) : Prop :=
  Relation.ReflTransGen (AgentStep cfg validate_input) AgentState.init s

/-- Method `BaseAgent.get_task_status` (agents.py 221-237): search `active_tasks`,
then `completed_tasks`, then `task_queue`; `None` if absent everywhere. -/
def get_task_status (s : AgentState) (task_id : Nat) : Option Task :=
  match s.active.find? (fun t => t.id = task_id) with
  | some t => some t
  | none =>
    match s.completed.find? (fun t => t.id = task_id) with
    | some t => some t
    | none => s.queue.find? (fun t => t.id = task_id)

/-! ### Real-time processor (realtime_processor.py) -/

/-- One buffered audio chunk; the bytes are an opaque token (the dict built at
realtime_processor.py 131-135 also carries timestamp and size, which no claim
reads). -/
abbrev Chunk := Nat

/-- Append to a `deque(maxlen=cap)`: when full, the oldest (front) element is
evicted (realtime_processor.py 32-33, maxlen 100 for audio, 50 for
transcripts). -/
def dequeAppend (cap : Nat) (buf : List α) (a : α) : List α :=
  let buf := buf ++ [a]
  if cap < buf.length then buf.drop (buf.length - cap) else buf

/-- A processing result as consumed by `_result_handler` and
`_update_session_metrics`: only the fields those functions read are modelled
(`confidence` and `word_count`, realtime_processor.py 387, 392; the full dict
is appended to the transcript buffer). -/
structure RtResult where
  confidence : ℚ
  word_count : ℚ
deriving DecidableEq, Repr

/-- Membership test `key in dict` on a Python dict modelled as an association
list with unique keys. -/
def dictContains (key : String) (d : List (String × ℚ)) : Bool :=
  d.any (fun kv => kv.1 = key)

/-- Read `dict[key]`; in every call site the key is present (the dict was just
initialised), so the default 0 never surfaces. -/
def dictGet (key : String) (d : List (String × ℚ)) : ℚ :=
  match d.find? (fun kv => kv.1 = key) with
  | some kv => kv.2
  | none => 0

/-- Assignment `dict[key] = v`: replace the value of an existing key, else append. -/
def dictSet (key : String) (v : ℚ) : List (String × ℚ) → List (String × ℚ)
  | [] => [(key, v)]
  | kv :: rest =>
    if kv.1 = key then (key, v) :: rest else kv :: dictSet key v rest

/-- Method `RealtimeProcessor._update_session_metrics` (realtime_processor.py
374-396), exactly as written: the guard tests whether the *key*
`"quality_metrics"` is in `session.quality_metrics` (line 376) and, when it
is not, resets the dict to its initial zeros; then the incremental-mean /
cumulative updates run on the (re)initialised dict. -/
def update_session_metrics (quality_metrics : List (String × ℚ))
    (result : RtResult) : List (String × ℚ) :=
  let quality_metrics :=
    if ¬ dictContains "quality_metrics" quality_metrics then
      [("avg_confidence", 0), ("total_chunks", 0),
       ("avg_processing_time", 0), ("total_words", 0)]
    else
      quality_metrics
  let total_chunks := dictGet "total_chunks" quality_metrics
  let quality_metrics :=
    dictSet "avg_confidence"
      ((dictGet "avg_confidence" quality_metrics * total_chunks
          + result.confidence) / (total_chunks + 1)) quality_metrics
  let quality_metrics :=
    dictSet "total_words"
      (dictGet "total_words" quality_metrics + result.word_count)
      quality_metrics
  dictSet "total_chunks" (total_chunks + 1) quality_metrics

/-- The `RealtimeSession` record (realtime_processor.py 23-37) restricted to the fields
the buffering claims read: the audio ring buffer (deque maxlen 100), the
transcript ring buffer (deque maxlen 50), the `is_active` flag and the
quality-metrics dict. -/
structure RtSession where
  audio_buffer : List Chunk := []
  transcript_buffer : List RtResult := []
  is_active : Bool := true
  quality_metrics : List (String × ℚ) := []
deriving DecidableEq, Repr

/-- One session's view of the processor: the session plus the jobs this
session has pushed onto the shared `processing_queue` (each job is the chunk
snapshot `list(session.audio_buffer)` taken by `_trigger_processing`,
realtime_processor.py 151-163). -/
structure RtState where
  session : RtSession
  jobs : List (List Chunk) := []
deriving DecidableEq, Repr

/-- A fresh session right after `create_session` (realtime_processor.py
100-116): empty buffers, active, no jobs. -/
def RtState.fresh : RtState := ⟨{}, []⟩

/-- Threshold `min_chunks_for_processing` (realtime_processor.py 55). -/
def min_chunks_for_processing : Nat := 4

/-- Method `RealtimeProcessor._trigger_processing` (realtime_processor.py 146-163):
snapshot the session's whole audio buffer and push it as one job; the buffer
itself is not modified. -/
def trigger_processing (s : RtState) : RtState :=
  let audio_chunks := s.session.audio_buffer
  if audio_chunks = [] then s
  else { s with jobs := s.jobs ++ [audio_chunks] }

/-- Method `RealtimeProcessor.add_audio_chunk` (realtime_processor.py 118-144) for a
registered session: reject (`false`) when the session is not active; otherwise
append the chunk to the audio ring buffer and, if the buffer now holds at
least `min_chunks_for_processing` chunks, trigger processing.  (The
unknown-session guard of lines 121-123 also returns `false`; no claim needs
it.) -/
def add_audio_chunk (s : RtState) (chunk : Chunk) : RtState × Bool :=
  if ¬ s.session.is_active then
    (s, false)
  else
    let session :=
      { s.session with
        audio_buffer := dequeAppend 100 s.session.audio_buffer chunk }
    let s := { s with session := session }
    if min_chunks_for_processing ≤ session.audio_buffer.length then
      (trigger_processing s, true)
    else
      (s, true)

/-- Fold `add_audio_chunk` over a list of chunks, dropping the booleans. -/
def addChunks (s : RtState) : List Chunk → RtState
  | [] => s
  | c :: rest => addChunks (add_audio_chunk s c).1 rest

/-- The per-result body of `RealtimeProcessor._result_handler`
(realtime_processor.py 345-364) for a session that still exists: append the
result to the transcript ring buffer and update the quality metrics.  The
audio buffer is not touched.  (The websocket push of lines 357-364 has no
effect on session state.) -/
def handle_result (s : RtState) (result : RtResult) : RtState :=
  { s with
    session :=
      { s.session with
        transcript_buffer :=
          dequeAppend 50 s.session.transcript_buffer result
        quality_metrics :=
          update_session_metrics s.session.quality_metrics result } }

/-- Submit a list of payloads (all passing validation) in arrival order,
numbering the tasks 0, 1, 2, … by arrival; each submission goes through
`add_task`. -/
def submitGo (n : Nat) (queue : List Task) : List Priority → List Task
  | [] => queue
  | p :: rest =>
    submitGo (n + 1) (add_task (fun _ => true) queue n 0 p).2 rest

/-- The pending queue after submitting tasks with the given priorities, in
that arrival order, to a fresh agent. -/
def submitAll (ps : List Priority) : List Task :=
  submitGo 0 [] ps

/-- Dequeue ordering: `a` is dequeued before `b` for the right reason — either
`a` has strictly higher priority, or the priorities are equal and `a` arrived
earlier (smaller arrival number). -/
def queueBefore (a b : Task) : Prop :=
  b.priority.value < a.priority.value ∨ (a.priority = b.priority ∧ a.id < b.id)

instance : DecidableRel queueBefore := fun _ _ => by
  unfold queueBefore; infer_instance

/-! ## Helper lemmas -/

theorem Priority.one_le_value (p : Priority) : 1 ≤ p.value := by
  cases p <;> simp [Priority.value]

theorem Priority.value_inj {p q : Priority} (h : p.value = q.value) : p = q := by
  cases p <;> cases q <;> simp_all [Priority.value]

theorem Priority.ofValue_demote_value (p : Priority) :
    (Priority.ofValue (max 1 (p.value - 1))).value = max 1 (p.value - 1) := by
  cases p <;> rfl

theorem queueBefore_trans {a b c : Task} (hab : queueBefore a b)
    (hbc : queueBefore b c) : queueBefore a c := by
  rcases hab with h | ⟨hp, hid⟩ <;> rcases hbc with h' | ⟨hp', hid'⟩
  · exact Or.inl (h'.trans h)
  · exact Or.inl (hp' ▸ h)
  · exact Or.inl (by rw [hp]; exact h')
  · exact Or.inr ⟨hp.trans hp', hid.trans hid'⟩

/-- Behaviour of the failing branch of `_execute_task` on the task record. -/
theorem execute_task_failure (cfg : AgentConfig) (t : Task) (queue : List Task)
    (msg : String) (h : t.retry_count < t.max_retries) :
    execute_task cfg t queue (.failure msg)
      = { task := retryTask { t with status := .error, error := some msg }
          queue := queue ++ [retryTask { t with status := .error, error := some msg }]
          requeued := true } := by
  simp [execute_task, h]

theorem execute_task_failure_exhausted (cfg : AgentConfig) (t : Task)
    (queue : List Task) (msg : String) (h : ¬ t.retry_count < t.max_retries) :
    execute_task cfg t queue (.failure msg)
      = { task := { t with status := .error, error := some msg }
          queue := queue
          requeued := false } := by
  simp [execute_task, h]

/-- The count / final-status / final-priority behaviour of repeatedly failing
execution, for an arbitrary starting `retry_count`. -/
theorem runAllFailing_spec (cfg : AgentConfig) :
    ∀ (fuel : Nat) (t : Task), t.max_retries - t.retry_count + 1 ≤ fuel →
      (runAllFailing cfg fuel t).1 = t.max_retries - t.retry_count + 1
      ∧ (runAllFailing cfg fuel t).2.status = .error
      ∧ (runAllFailing cfg fuel t).2.priority.value
          = max 1 (t.priority.value - (t.max_retries - t.retry_count)) := by
  intro fuel
  induction fuel with
  | zero => intro t h; omega
  | succ fuel ih =>
    intro t h
    by_cases hrc : t.retry_count < t.max_retries
    · have hstep : runAllFailing cfg (fuel + 1) t
          = ((runAllFailing cfg fuel
                (retryTask { t with status := .error, error := some "boom" })).1 + 1,
             (runAllFailing cfg fuel
                (retryTask { t with status := .error, error := some "boom" })).2) := by
        rw [runAllFailing, execute_task_failure cfg t [] "boom" hrc]
        rfl
      set t' := retryTask { t with status := .error, error := some "boom" } with ht'
      have h1 : t'.retry_count = t.retry_count + 1 := by simp [ht', retryTask]
      have h2 : t'.max_retries = t.max_retries := by simp [ht', retryTask]
      have h3 : t'.priority.value = max 1 (t.priority.value - 1) := by
        simp [ht', retryTask, Priority.ofValue_demote_value]
      have hfuel' : t'.max_retries - t'.retry_count + 1 ≤ fuel := by omega
      obtain ⟨hc, hs, hp⟩ := ih t' hfuel'
      rw [hstep]
      refine ⟨?_, hs, ?_⟩
      · rw [hc]; omega
      · rw [hp, h1, h2, h3]
        have hv1 : 1 ≤ t.priority.value := Priority.one_le_value _
        omega
    · have hstep : runAllFailing cfg (fuel + 1) t
          = (1, { t with status := .error, error := some "boom" }) := by
        rw [runAllFailing, execute_task_failure_exhausted cfg t [] "boom" hrc]
        rfl
      rw [hstep]
      have hv1 : 1 ≤ t.priority.value := Priority.one_le_value _
      refine ⟨by omega, rfl, by simp; omega⟩

/-! ## Claims -/

/-- Claim C1. A task whose collaborator raises on every attempt reaches terminal
Error status after exactly `max_retries + 1` invocations of `process_task`,
and its final priority value is `max(Low, initial_priority - max_retries)`:
the demotion is applied one level per retry with a floor at LOW
(agents.py 163-182). -/
theorem claim_C1 (cfg : AgentConfig) (t : Task) (fuel : Nat)
    (hstart : t.retry_count = 0) (hfuel : t.max_retries + 1 ≤ fuel) :
    (runAllFailing cfg fuel t).1 = t.max_retries + 1
    ∧ (runAllFailing cfg fuel t).2.status = .error
    ∧ (runAllFailing cfg fuel t).2.priority.value
        = max Priority.low.value (t.priority.value - t.max_retries) := by
  have hm := runAllFailing_spec cfg fuel t (by omega)
  rw [hstart] at hm
  simpa [Priority.value] using hm

/-- Witness for C1: a CRITICAL task with `max_retries = 3` fails 4 times and
ends in Error at priority value 1 (LOW). -/
theorem claim_C1_witness :
    (mkTask 0 0 .critical).retry_count = 0
    ∧ (mkTask 0 0 .critical).max_retries + 1 ≤ 4
    ∧ ((runAllFailing {} 4 (mkTask 0 0 .critical)).1
          = (mkTask 0 0 .critical).max_retries + 1
        ∧ (runAllFailing {} 4 (mkTask 0 0 .critical)).2.status = .error
        ∧ (runAllFailing {} 4 (mkTask 0 0 .critical)).2.priority.value
            = max Priority.low.value
                ((mkTask 0 0 .critical).priority.value
                  - (mkTask 0 0 .critical).max_retries)) :=
  ⟨rfl, by decide, claim_C1 {} (mkTask 0 0 .critical) 4 rfl (by decide)⟩

/-- Claim C4, amended. A timeout is *not* treated like other execution
failures: `asyncio.TimeoutError` is caught by its own `except` clause
(agents.py 158-161), which contains no retry logic, so the task is marked
terminal Error with message "Task timeout" on the first timeout — it is not
re-enqueued and `retry_count` is unchanged, even when
`retry_count < max_retries`.  Only a non-timeout exception reaches the retry
branch. -/
theorem claim_C4 (cfg : AgentConfig) (t : Task) (queue : List Task) :
    (execute_task cfg t queue .timeout).requeued = false
    ∧ (execute_task cfg t queue .timeout).queue = queue
    ∧ (execute_task cfg t queue .timeout).task.status = .error
    ∧ (execute_task cfg t queue .timeout).task.error = some "Task timeout"
    ∧ (execute_task cfg t queue .timeout).task.retry_count = t.retry_count := by
  simp [execute_task]

/-- Counterexample to C4 as stated: a fresh MEDIUM task
(`retry_count = 0 < 3 = max_retries`) that times out is *not* retried — it is
not re-enqueued, its `retry_count` stays 0, and it ends in terminal Error. -/
theorem claim_C4_counterexample :
    (mkTask 0 0 .medium).retry_count < (mkTask 0 0 .medium).max_retries
    ∧ (execute_task {} (mkTask 0 0 .medium) [] .timeout).requeued = false
    ∧ (execute_task {} (mkTask 0 0 .medium) [] .timeout).queue = []
    ∧ (execute_task {} (mkTask 0 0 .medium) [] .timeout).task.retry_count = 0
    ∧ (execute_task {} (mkTask 0 0 .medium) [] .timeout).task.status = .error := by
  decide

/-- Claim C5, amended. When a task fails with `retry_count < max_retries`, the
re-enqueue postcondition is: `retry_count` incremented, priority demoted by
exactly one level with floor LOW, error cleared, status reset to IDLE — and
the task is appended at the *absolute tail of the pending queue*
(`self.task_queue.append(task)`, agents.py 176), not at the tail of its new
priority band: pending tasks of strictly lower priority that are already
queued stay ahead of it. -/
theorem claim_C5 (cfg : AgentConfig) (t : Task) (queue : List Task)
    (msg : String) (h : t.retry_count < t.max_retries) :
    (execute_task cfg t queue (.failure msg)).requeued = true
    ∧ (execute_task cfg t queue (.failure msg)).task.retry_count
        = t.retry_count + 1
    ∧ (execute_task cfg t queue (.failure msg)).task.priority.value
        = max Priority.low.value (t.priority.value - 1)
    ∧ (execute_task cfg t queue (.failure msg)).task.error = none
    ∧ (execute_task cfg t queue (.failure msg)).task.status = .idle
    ∧ (execute_task cfg t queue (.failure msg)).queue
        = queue ++ [(execute_task cfg t queue (.failure msg)).task] := by
  rw [execute_task_failure cfg t queue msg h]
  refine ⟨rfl, rfl, ?_, rfl, rfl, rfl⟩
  have hlow : Priority.low.value = 1 := rfl
  simp [retryTask, Priority.ofValue_demote_value, hlow]

/-- Witness for C5 (amended): a failing CRITICAL task with an empty queue is
re-enqueued demoted to HIGH (value 3 = max 1 (4-1)). -/
theorem claim_C5_witness :
    (mkTask 0 0 .critical).retry_count < (mkTask 0 0 .critical).max_retries
    ∧ ((execute_task {} (mkTask 0 0 .critical) [] (.failure "x")).requeued = true
        ∧ (execute_task {} (mkTask 0 0 .critical) [] (.failure "x")).task.retry_count
            = (mkTask 0 0 .critical).retry_count + 1
        ∧ (execute_task {} (mkTask 0 0 .critical) [] (.failure "x")).task.priority.value
            = max Priority.low.value ((mkTask 0 0 .critical).priority.value - 1)
        ∧ (execute_task {} (mkTask 0 0 .critical) [] (.failure "x")).task.error = none
        ∧ (execute_task {} (mkTask 0 0 .critical) [] (.failure "x")).task.status = .idle
        ∧ (execute_task {} (mkTask 0 0 .critical) [] (.failure "x")).queue
            = [] ++ [(execute_task {} (mkTask 0 0 .critical) [] (.failure "x")).task]) :=
  ⟨by decide, claim_C5 {} (mkTask 0 0 .critical) [] "x" (by decide)⟩

/-- Counterexample to C5 as stated: a CRITICAL task fails while a LOW task is
pending; the retried task (demoted to HIGH, still strictly above LOW) is
appended *after* the LOW task, so it is not placed before all pending tasks
of strictly lower priority. -/
theorem claim_C5_counterexample :
    ((execute_task {} (mkTask 0 0 .critical) [mkTask 1 0 .low]
          (.failure "x")).queue.map (fun u => (u.id, u.priority)))
      = [(1, Priority.low), (0, Priority.high)]
    ∧ Priority.low.value < Priority.high.value
    ∧ (execute_task {} (mkTask 0 0 .critical) [mkTask 1 0 .low]
          (.failure "x")).requeued = true := by
  decide

/-- Membership after the priority insertion: exactly the old entries plus the
new task. -/
theorem mem_addTaskInsert {queue : List Task} {t u : Task} :
    u ∈ addTaskInsert queue t ↔ u ∈ queue ∨ u = t := by
  induction queue with
  | nil => simp [addTaskInsert]
  | cons v rest ih =>
    simp only [addTaskInsert]
    split
    · simp [List.mem_cons]
      tauto
    · simp [List.mem_cons, ih]
      tauto

/-- Every entry of the queue left by `_execute_task` was already pending, or
is the re-enqueued retry of the executed task (same payload, status reset to
IDLE). -/
theorem exec_queue_mem {cfg : AgentConfig} {t : Task} {queue : List Task}
    {o : ExecOutcome} {u : Task}
    (hu : u ∈ (execute_task cfg t queue o).queue) :
    u ∈ queue ∨ (u.data = t.data ∧ u.status = .idle) := by
  rcases o with r | _ | msg
  · exact Or.inl hu
  · exact Or.inl hu
  · by_cases h : t.retry_count < t.max_retries
    · rw [execute_task_failure cfg t queue msg h] at hu
      rcases List.mem_append.mp hu with hu | hu
      · exact Or.inl hu
      · rw [List.mem_singleton.mp hu]
        exact Or.inr ⟨rfl, rfl⟩
    · rw [execute_task_failure_exhausted cfg t queue msg h] at hu
      exact Or.inl hu

/-- The success branch of `_execute_task` when the quality gate fires (score
below threshold): the result is annotated with both the score and the
low-quality warning. -/
theorem execute_task_success_low {cfg : AgentConfig} (t : Task)
    (queue : List Task) {r : AgentResult}
    (hqc : cfg.enable_quality_control = true)
    (hlt : assess_quality r < cfg.confidence_threshold) :
    execute_task cfg t queue (.success r)
      = { task := { t with status := .completed, result := some { r with quality_score := some (assess_quality r), quality_warning := true } }, queue := queue, requeued := false } := by
  simp [execute_task, hqc, hlt]

/-- The success branch of `_execute_task` when the score passes the gate: only
the score is written; `quality_warning` is untouched. -/
theorem execute_task_success_high {cfg : AgentConfig} (t : Task)
    (queue : List Task) {r : AgentResult}
    (hqc : cfg.enable_quality_control = true)
    (hge : ¬ assess_quality r < cfg.confidence_threshold) :
    execute_task cfg t queue (.success r)
      = { task := { t with status := .completed, result := some { r with quality_score := some (assess_quality r) } }, queue := queue, requeued := false } := by
  simp [execute_task, hqc, hge]

/-- Claim C9. With quality control enabled, a successful execution always ends
in Completed status; the quality score written into the result is
`assess_quality` of the collaborator result — its `confidence` field if
present, else its `accuracy` field, else 0.8, clamped to `[0, 1]` — and the
low-quality annotation `quality_warning` is set exactly when the score is
below `confidence_threshold` (left untouched otherwise)
(agents.py 142-153, 184-195). -/
theorem claim_C9 (cfg : AgentConfig) (t : Task) (queue : List Task)
    (r : AgentResult) (hqc : cfg.enable_quality_control = true) :
    (execute_task cfg t queue (.success r)).task.status = .completed
    ∧ (∀ r', (execute_task cfg t queue (.success r)).task.result = some r' →
        r'.quality_score = some (assess_quality r)
        ∧ (assess_quality r < cfg.confidence_threshold → r'.quality_warning = true)
        ∧ (cfg.confidence_threshold ≤ assess_quality r →
            r'.quality_warning = r.quality_warning))
    ∧ (0 ≤ assess_quality r ∧ assess_quality r ≤ 1)
    ∧ (∀ c, r.confidence = some c → assess_quality r = min 1 (max 0 c))
    ∧ (r.confidence = none → ∀ a, r.accuracy = some a →
        assess_quality r = min 1 (max 0 a))
    ∧ (r.confidence = none → r.accuracy = none → assess_quality r = 4/5) := by
  refine ⟨rfl, ?_, ⟨le_min (by norm_num) (le_max_left _ _), min_le_left _ _⟩,
    ?_, ?_, ?_⟩
  · intro r' hr'
    by_cases hlt : assess_quality r < cfg.confidence_threshold
    · rw [execute_task_success_low t queue hqc hlt] at hr'
      obtain rfl : { r with quality_score := some (assess_quality r), quality_warning := true } = r' := by
        simpa using hr'
      exact ⟨rfl, fun _ => rfl, fun hge => absurd hlt (not_lt.mpr hge)⟩
    · rw [execute_task_success_high t queue hqc hlt] at hr'
      obtain rfl : { r with quality_score := some (assess_quality r) } = r' := by
        simpa using hr'
      exact ⟨rfl, fun hlt' => absurd hlt' hlt, fun _ => rfl⟩
  · intro c hc
    simp [assess_quality, hc]
  · intro h1 a h2
    simp [assess_quality, h1, h2]
  · intro h1 h2
    norm_num [assess_quality, h1, h2]

/-- Witness for C9: the default config has quality control on with threshold
0.7; a result with confidence 0.5 completes, and its score is the clamp of
0.5. -/
theorem claim_C9_witness :
    ({} : AgentConfig).enable_quality_control = true
    ∧ (execute_task {} (mkTask 0 0 .medium) []
          (.success { confidence := some (1/2), accuracy := none })).task.status
        = .completed
    ∧ assess_quality { confidence := some (1/2), accuracy := none }
        = min 1 (max 0 (1/2)) := by
  refine ⟨rfl, ?_, ?_⟩
  · exact (claim_C9 {} (mkTask 0 0 .medium) []
      { confidence := some (1/2), accuracy := none } rfl).1
  · exact (claim_C9 {} (mkTask 0 0 .medium) []
      { confidence := some (1/2), accuracy := none } rfl).2.2.2.1 (1/2) rfl

/-- Claim C10. A submission failing `validate_input` yields a task immediately
in terminal Error state with message "Invalid input data" and
`retry_count = 0`, the pending queue is left untouched, and — since every
reachable queue/active entry carries payload data that passed validation, and
`process_task` is only invoked on tasks admitted into the active set — the
collaborator's `process` is never invoked on it (agents.py 77-106). -/
theorem claim_C10 (cfg : AgentConfig) (validate_input : Nat → Bool)
    (queue : List Task) (id data : Nat) (priority : Priority)
    (hv : validate_input data = false) :
    ((add_task validate_input queue id data priority).1.status = .error
      ∧ (add_task validate_input queue id data priority).1.error
          = some "Invalid input data"
      ∧ (add_task validate_input queue id data priority).1.retry_count = 0
      ∧ (add_task validate_input queue id data priority).2 = queue)
    ∧ ∀ s, AgentReachable cfg validate_input s →
        (∀ u ∈ s.queue, validate_input u.data = true)
        ∧ (∀ u ∈ s.active, validate_input u.data = true) := by
  constructor
  · simp [add_task, mkTask, hv]
  · intro s hs
    induction hs with
    | refl => simp [AgentState.init]
    | tail h step ih =>
      cases step with
      | submit id' data' priority' hv' =>
        refine ⟨?_, ih.2⟩
        intro u hu
        simp [add_task, hv'] at hu
        rcases mem_addTaskInsert.mp hu with hu' | rfl
        · exact ih.1 u hu'
        · exact hv'
      | submitInvalid data' hv' => exact ih
      | startExec t rest hq hcap =>
        refine ⟨?_, ?_⟩
        · intro u hu
          exact ih.1 u (by rw [hq]; exact List.mem_cons_of_mem _ hu)
        · intro u hu
          rcases List.mem_append.mp hu with hu' | hu'
          · exact ih.2 u hu'
          · rw [List.mem_singleton.mp hu']
            exact ih.1 t (by rw [hq]; exact List.mem_cons_self _ _)
      | finishExec t o ht =>
        refine ⟨?_, ?_⟩
        · intro u hu
          rcases exec_queue_mem hu with hu' | ⟨hdata, _⟩
          · exact ih.1 u hu'
          · rw [hdata]; exact ih.2 t ht
        · intro u hu
          exact ih.2 u (List.mem_of_mem_filter hu)
      | reap =>
        refine ⟨ih.1, ?_⟩
        intro u hu
        obtain ⟨hmem, -⟩ : u ∈ _ ∧ isTerminal u = false := by
          simpa [check_completed_tasks, List.mem_filter] using hu
        exact ih.2 u hmem

/-- Witness for C10: a validator that rejects everything. -/
theorem claim_C10_witness :
    (fun _ : Nat => false) 0 = false
    ∧ ((add_task (fun _ => false) [] 0 0 .medium).1.status = .error
        ∧ (add_task (fun _ => false) [] 0 0 .medium).1.error
            = some "Invalid input data"
        ∧ (add_task (fun _ => false) [] 0 0 .medium).1.retry_count = 0
        ∧ (add_task (fun _ => false) [] 0 0 .medium).2 = [])
    ∧ ∀ s, AgentReachable {} (fun _ => false) s →
        (∀ u ∈ s.queue, (fun _ : Nat => false) u.data = true)
        ∧ (∀ u ∈ s.active, (fun _ : Nat => false) u.data = true) :=
  ⟨rfl, (claim_C10 {} (fun _ => false) [] 0 0 .medium rfl).1,
    (claim_C10 {} (fun _ => false) [] 0 0 .medium rfl).2⟩

/-- Claim C3. In every reachable state of an agent with
`max_concurrent_tasks ≥ 1`, the active set — whose members are exactly the
tasks in Processing status — never holds more than `max_concurrent_tasks`
tasks: `startExec` admits a task only under the capacity guard
(agents.py 116), and every other step only removes from or preserves the
active set (agents.py 113-123, 129-133, 180-182). -/
theorem claim_C3 (cfg : AgentConfig) (validate_input : Nat → Bool)
    (s : AgentState) (_hcap : 1 ≤ cfg.max_concurrent_tasks)
    (hs : AgentReachable cfg validate_input s) :
    s.active.length ≤ cfg.max_concurrent_tasks
    ∧ ∀ u ∈ s.active, u.status = .processing := by
  induction hs with
  | refl => simp [AgentState.init]
  | tail h step ih =>
    cases step with
    | submit id' data' priority' hv' => exact ih
    | submitInvalid data' hv' => exact ih
    | startExec t rest hq hcap' =>
      refine ⟨?_, ?_⟩
      · simp only [List.length_append, List.length_cons, List.length_nil]
        omega
      · intro u hu
        rcases List.mem_append.mp hu with hu' | hu'
        · exact ih.2 u hu'
        · rw [List.mem_singleton.mp hu']
    | finishExec t o ht =>
      refine ⟨le_trans (List.length_filter_le _ _) ih.1, ?_⟩
      intro u hu
      exact ih.2 u (List.mem_of_mem_filter hu)
    | reap =>
      rename_i s'
      refine ⟨?_, ?_⟩
      · exact le_trans (List.length_filter_le _ s'.active) ih.1
      · intro u hu
        obtain ⟨hmem, -⟩ : u ∈ s'.active ∧ isTerminal u = false := by
          simpa [check_completed_tasks, List.mem_filter] using hu
        exact ih.2 u hmem

/-- Witness for C3: the default config (cap 5) in the initial state. -/
theorem claim_C3_witness :
    1 ≤ ({} : AgentConfig).max_concurrent_tasks
    ∧ (AgentState.init.active.length ≤ ({} : AgentConfig).max_concurrent_tasks
        ∧ ∀ u ∈ AgentState.init.active, u.status = .processing) :=
  ⟨by decide, claim_C3 {} (fun _ => true) AgentState.init (by decide)
    Relation.ReflTransGen.refl⟩

/-- Claim C6 is false of the code (code bug). `_execute_task` always removes the
task from `active_tasks` in its `finally` block (agents.py 180-182) *before*
the scheduling loop — which awaited it — can call `_check_completed_tasks`
(agents.py 121), so the reaper never sees a terminal task: in every reachable
state `completed_tasks` is empty and `get_task_status` can only return a
queued (Idle) or active (Processing) task, never a terminal one.  Terminal
tasks, far from being retained and retrievable, are dropped entirely. -/
theorem claim_C6 (cfg : AgentConfig) (validate_input : Nat → Bool)
    (s : AgentState) (hs : AgentReachable cfg validate_input s) :
    s.completed = []
    ∧ ∀ (task_id : Nat) (u : Task),
        get_task_status s task_id = some u → isTerminal u = false := by
  have hinv : s.completed = []
      ∧ (∀ u ∈ s.queue, u.status = .idle)
      ∧ (∀ u ∈ s.active, u.status = .processing) := by
    induction hs with
    | refl => simp [AgentState.init]
    | tail h step ih =>
      cases step with
      | submit id' data' priority' hv' =>
        refine ⟨ih.1, ?_, ih.2.2⟩
        intro u hu
        simp [add_task, hv'] at hu
        rcases mem_addTaskInsert.mp hu with hu' | rfl
        · exact ih.2.1 u hu'
        · rfl
      | submitInvalid data' hv' => exact ih
      | startExec t rest hq hcap' =>
        refine ⟨ih.1, ?_, ?_⟩
        · intro u hu
          exact ih.2.1 u (by rw [hq]; exact List.mem_cons_of_mem _ hu)
        · intro u hu
          rcases List.mem_append.mp hu with hu' | hu'
          · exact ih.2.2 u hu'
          · rw [List.mem_singleton.mp hu']
      | finishExec t o ht =>
        refine ⟨ih.1, ?_, ?_⟩
        · intro u hu
          rcases exec_queue_mem hu with hu' | ⟨_, hidle⟩
          · exact ih.2.1 u hu'
          · exact hidle
        · intro u hu
          exact ih.2.2 u (List.mem_of_mem_filter hu)
      | reap =>
        rename_i s'
        have hfilter : s'.active.filter (fun u => isTerminal u) = [] := by
          rw [List.filter_eq_nil_iff]
          intro u hu
          simp [isTerminal, ih.2.2 u hu]
        refine ⟨?_, ih.2.1, ?_⟩
        · simp [check_completed_tasks, hfilter, ih.1]
        · intro u hu
          obtain ⟨hmem, -⟩ : u ∈ s'.active ∧ isTerminal u = false := by
            simpa [check_completed_tasks, List.mem_filter] using hu
          exact ih.2.2 u hmem
  refine ⟨hinv.1, ?_⟩
  intro task_id u hu
  unfold get_task_status at hu
  split at hu
  · next v heq =>
      have hv := hinv.2.2 v (List.mem_of_find?_eq_some heq)
      have hvu : v = u := by simpa using hu
      subst hvu
      simp [isTerminal, hv]
  · next heq =>
      split at hu
      · next w heq2 =>
          rw [hinv.1] at heq2
          simp at heq2
      · next heq2 =>
          simp [isTerminal, hinv.2.1 u (List.mem_of_find?_eq_some hu)]

/-- Witness for C6: the invariant instantiated at the initial state. -/
theorem claim_C6_witness :
    AgentState.init.completed = []
    ∧ ∀ (task_id : Nat) (u : Task),
        get_task_status AgentState.init task_id = some u → isTerminal u = false :=
  claim_C6 {} (fun _ => true) AgentState.init Relation.ReflTransGen.refl

/-- The insertion of `add_task` in closed form: the new task lands exactly
before the first queue entry with strictly lower priority (equivalently,
after the maximal prefix of entries with priority ≥ its own). -/
theorem addTaskInsert_eq (queue : List Task) (t : Task) :
    addTaskInsert queue t
      = queue.takeWhile (fun u => t.priority.value ≤ u.priority.value)
        ++ t :: queue.dropWhile (fun u => t.priority.value ≤ u.priority.value) := by
  induction queue with
  | nil => rfl
  | cons v rest ih =>
    by_cases h : t.priority.value > v.priority.value
    · have hb : ¬ (t.priority.value ≤ v.priority.value) := not_le.mpr h
      simp [addTaskInsert, h, List.takeWhile_cons, List.dropWhile_cons, hb]
    · have hb : t.priority.value ≤ v.priority.value := not_lt.mp h
      simp [addTaskInsert, h, List.takeWhile_cons, List.dropWhile_cons, hb, ih]

theorem pairwise_addTaskInsert {queue : List Task} {t : Task}
    (hq : queue.Pairwise queueBefore)
    (hid : ∀ u ∈ queue, u.id < t.id) :
    (addTaskInsert queue t).Pairwise queueBefore := by
  induction queue with
  | nil => simp [addTaskInsert]
  | cons v rest ih =>
    obtain ⟨hv, hrest⟩ := List.pairwise_cons.mp hq
    by_cases h : t.priority.value > v.priority.value
    · simp only [addTaskInsert, if_pos h]
      refine List.pairwise_cons.mpr ⟨?_, hq⟩
      intro w hw
      rcases List.mem_cons.mp hw with rfl | hw'
      · exact Or.inl h
      · exact queueBefore_trans (Or.inl h) (hv w hw')
    · simp only [addTaskInsert, if_neg h]
      refine List.pairwise_cons.mpr
        ⟨?_, ih hrest (fun u hu => hid u (List.mem_cons_of_mem _ hu))⟩
      intro w hw
      rcases mem_addTaskInsert.mp hw with hw' | rfl
      · exact hv w hw'
      · rcases Nat.lt_or_ge w.priority.value v.priority.value with hlt | hge
        · exact Or.inl hlt
        · have heq : v.priority.value = w.priority.value :=
            le_antisymm hge (not_lt.mp h)
          exact Or.inr ⟨Priority.value_inj heq,
            hid v (List.mem_cons_self _ _)⟩

theorem submitGo_pairwise (ps : List Priority) :
    ∀ (n : Nat) (queue : List Task), queue.Pairwise queueBefore →
      (∀ u ∈ queue, u.id < n) →
      (submitGo n queue ps).Pairwise queueBefore := by
  induction ps with
  | nil =>
    intro n queue hq _
    simpa [submitGo] using hq
  | cons p rest ih =>
    intro n queue hq hid
    rw [submitGo]
    have hadd : (add_task (fun _ => true) queue n 0 p).2
        = addTaskInsert queue (mkTask n 0 p) := by
      simp [add_task]
    rw [hadd]
    apply ih
    · exact pairwise_addTaskInsert hq hid
    · intro u hu
      rcases mem_addTaskInsert.mp hu with hu' | rfl
      · exact Nat.lt_succ_of_lt (hid u hu')
      · exact Nat.lt_succ_self n

/-- Claim C2. The pending queue built from any sequence of submissions is
totally ordered for dequeueing: for any two positions `i < j`, the earlier
entry has strictly higher priority or the same priority and an earlier
arrival number — so, since the scheduling loop always pops the queue head
(`self.task_queue.pop(0)`, agents.py 117), a strictly-higher-priority pending
task is dequeued before a lower one, and equal-priority tasks are dequeued in
arrival order.  Moreover `add_task`'s scan (agents.py 94-103) places each new
task exactly before the first entry of strictly lower priority, after all
entries of equal or higher priority. -/
theorem claim_C2 (ps : List Priority) :
    ((submitAll ps).Pairwise queueBefore
      ∧ ∀ (i j : Fin (submitAll ps).length), i < j →
          queueBefore ((submitAll ps).get i) ((submitAll ps).get j))
    ∧ ∀ (queue : List Task) (t : Task),
        addTaskInsert queue t
          = queue.takeWhile (fun u => t.priority.value ≤ u.priority.value)
            ++ t :: queue.dropWhile (fun u => t.priority.value ≤ u.priority.value) := by
  have hp : (submitAll ps).Pairwise queueBefore :=
    submitGo_pairwise ps 0 [] List.Pairwise.nil (by simp)
  exact ⟨⟨hp, fun i j hij => List.pairwise_iff_get.mp hp i j hij⟩,
    addTaskInsert_eq⟩

/-- Claim C7, amended.  After exactly 4 `add_chunk` calls to a fresh Active
session (trigger threshold 4) exactly one processing job has been enqueued
and it contains exactly those 4 chunks.  But a 5th chunk does *not* start a
new batch: because `add_audio_chunk` re-fires the trigger whenever the buffer
holds ≥ 4 chunks and `_trigger_processing` snapshots the *whole* buffer
(realtime_processor.py 141-142, 151), the 5th chunk enqueues a second job
containing all 5 buffered chunks, the in-flight 4 included.  And buffered
chunks are never cleared when a job's result returns: the result handler
(realtime_processor.py 345-364) leaves `audio_buffer` (and the job queue)
untouched — chunks leave the buffer only by ring-buffer eviction at capacity
100 or by `end_session` deleting the session. -/
theorem claim_C7 (c1 c2 c3 c4 c5 : Chunk) :
    (addChunks RtState.fresh [c1, c2, c3]).jobs = []
    ∧ (addChunks RtState.fresh [c1, c2, c3, c4]).jobs = [[c1, c2, c3, c4]]
    ∧ (addChunks RtState.fresh [c1, c2, c3, c4]).session.audio_buffer
        = [c1, c2, c3, c4]
    ∧ (add_audio_chunk (addChunks RtState.fresh [c1, c2, c3, c4]) c5).1.jobs
        = [[c1, c2, c3, c4], [c1, c2, c3, c4, c5]]
    ∧ ∀ (s : RtState) (result : RtResult),
        (handle_result s result).session.audio_buffer = s.session.audio_buffer
        ∧ (handle_result s result).jobs = s.jobs := by
  refine ⟨?_, ?_, ?_, ?_, fun s result => ⟨rfl, rfl⟩⟩ <;>
    simp [addChunks, add_audio_chunk, dequeAppend, trigger_processing,
      min_chunks_for_processing, RtState.fresh]

/-- Counterexample to C7 as stated: with concrete chunks 10..50, the job
enqueued by the 5th `add_chunk` contains all five chunks — the four already
in flight included, so no fresh batch was started — and delivering a result
clears nothing from the audio buffer. -/
theorem claim_C7_counterexample :
    (addChunks RtState.fresh [10, 20, 30, 40]).jobs = [[10, 20, 30, 40]]
    ∧ (addChunks RtState.fresh [10, 20, 30, 40, 50]).jobs
        = [[10, 20, 30, 40], [10, 20, 30, 40, 50]]
    ∧ (10 : Chunk) ∈ (addChunks RtState.fresh [10, 20, 30, 40, 50]).jobs[1]!
    ∧ (handle_result (addChunks RtState.fresh [10, 20, 30, 40, 50])
          { confidence := 9/10, word_count := 2 }).session.audio_buffer
        = [10, 20, 30, 40, 50] := by
  refine ⟨by decide, by decide, by decide, rfl⟩

/-- Claim C8 is false of the code (code bug).  `_update_session_metrics` guards
its initialisation with `if "quality_metrics" not in session.quality_metrics`
(realtime_processor.py 376) — a key that is never stored in that dict — so the
metrics are reset to zero on *every* call: after delivering results with
confidences 0.4 and 0.8 and word counts 2 and 3, the session's metrics hold
only the last result (`avg_confidence = 0.8`, `total_words = 3`,
`total_chunks = 1`) instead of the incremental mean 0.6, cumulative count 5,
and chunk count 2 the claim (and the incremental-mean code right below the
guard) call for. -/
theorem claim_C8 :
    dictGet "avg_confidence"
        (handle_result (handle_result RtState.fresh
          { confidence := 2/5, word_count := 2 })
          { confidence := 4/5, word_count := 3 }).session.quality_metrics = 4/5
    ∧ dictGet "total_words"
        (handle_result (handle_result RtState.fresh
          { confidence := 2/5, word_count := 2 })
          { confidence := 4/5, word_count := 3 }).session.quality_metrics = 3
    ∧ dictGet "total_chunks"
        (handle_result (handle_result RtState.fresh
          { confidence := 2/5, word_count := 2 })
          { confidence := 4/5, word_count := 3 }).session.quality_metrics = 1
    ∧ (4/5 : ℚ) ≠ (2/5 + 4/5) / 2
    ∧ (3 : ℚ) ≠ 2 + 3
    ∧ (1 : ℚ) ≠ 2 := by
  refine ⟨?_, ?_, ?_, by norm_num, by norm_num, by norm_num⟩ <;>
    simp +decide [handle_result, update_session_metrics, dictGet, dictSet,
      dictContains, RtState.fresh]

end ConvoAnalytics
